import Mathlib

/-!
# Verification of the AKS Storage Lab sample application

A shallow embedding of `src/lab3-sample-app/app/app.py`, a small Flask
service exposing `/health`, `/list` and `/upload` over an Azure Blob
Storage container, together with theorems settling the specification
claims about it.

Modelling conventions:
* The process environment is a mapping `String → Option String`
  (`os.getenv` returns `None` for an unset variable).
* The module-level configuration and client bootstrap (app.py lines
  21–41) is `startup`, returning `Except` — `.error` models the raised
  `ValueError` that aborts the process before any route is served or
  any port is bound.
* Each route handler performs exactly one storage call; its outcome is
  an `Except String α` value (`.error m` models a raised exception
  whose `str()` is `m`).  The pure response constructors
  (`health`, `list_blobs`, `upload_test_file`) are the success/failure
  branches of the Python handlers; the stateful wrappers
  (`healthHandler`, `listHandler`, `uploadHandler`) thread an explicit
  storage state through the single call each handler makes.
* JSON response bodies are ordered association lists, as written in the
  source dicts.  Every JSON value this app emits is an atom (string,
  integer or null) or an array of flat objects, which the stratified
  `JAtom`/`JObj`/`JVal` types capture exactly.
* Python `len` on a `str` counts code points, modelled by
  `String.length`; the UTF-8 byte length of a string is modelled by
  `utf8Length`.
* Timestamps (`datetime.utcnow().isoformat()`) are opaque strings
  supplied as parameters: each distinct parameter models one distinct
  clock sample, placed where the source calls the clock.
-/

namespace AksStorageLab

/-- Atomic JSON values appearing in the responses of the app. -/
inductive JAtom where
  | str : String → JAtom
  | nat : Nat → JAtom
  | null : JAtom
deriving DecidableEq, Repr

/-- A flat JSON object (ordered fields, atomic values). -/
abbrev JObj := List (String × JAtom)

/-- A JSON value in a response body: an atom, or an array of flat
objects (the `blobs` array). -/
inductive JVal where
  | atom : JAtom → JVal
  | arr : List JObj → JVal
deriving DecidableEq, Repr

/-- A JSON string value. -/
def JVal.str (s : String) : JVal := .atom (.str s)

/-- A JSON integer value. -/
def JVal.nat (n : Nat) : JVal := .atom (.nat n)

/-- The JSON null value. -/
def JVal.null : JVal := .atom .null

/-- A process environment: `os.getenv` semantics (`none` = unset). -/
def Env : Type := String → Option String

/-- Python truthiness of an optional string: `None` and `""` are falsy
(app.py line 26: `if not STORAGE_ACCOUNT_NAME`). -/
def strTruthy : Option String → Bool
  | none => false
  | some s => s ≠ ""

/-- The process-wide state built at module import time: the two
configuration values and the endpoint URL the `BlobServiceClient` is
bound to (app.py lines 22, 23, 32, 37). -/
structure AppState where
  storage_account : String
  container : String
  account_url : String
deriving DecidableEq, Repr

/-- Module-level bootstrap, app.py lines 21–41: read
`AZURE_STORAGE_ACCOUNT_NAME` (required) and
`AZURE_STORAGE_CONTAINER_NAME` (default `"data"`), raise `ValueError`
when the account name is unset or empty, then derive `account_url` and
construct the client.  The `.error` result models the raised exception:
nothing after line 28 runs, so no client is built and no port is bound. -/
def startup (env : Env) : Except String AppState :=
  let sa := env "AZURE_STORAGE_ACCOUNT_NAME"
  let cn := (env "AZURE_STORAGE_CONTAINER_NAME").getD "data"
  match sa with
  | none => .error "AZURE_STORAGE_ACCOUNT_NAME must be set"
  | some s =>
    if s = "" then .error "AZURE_STORAGE_ACCOUNT_NAME must be set"
    else .ok { storage_account := s
               container := cn
               account_url := "https://" ++ s ++ ".blob.core.windows.net" }

/-- `ContentSettings` of a listed blob, as exposed by the storage SDK:
holds the (optional) content type. -/
structure ContentSettings where
  content_type : Option String
deriving DecidableEq, Repr

/-- One blob descriptor as enumerated by `container_client.list_blobs()`:
the four attributes app.py lines 212–215 read.  `last_modified` is the
ISO string of the datetime when the service reports one. -/
structure BlobItem where
  name : String
  size : Nat
  last_modified : Option String
  content_settings : Option ContentSettings
deriving DecidableEq, Repr

/-- The projection app.py lines 211–216 applies to each enumerated
blob: `last_modified` becomes null when absent, `content_type` becomes
null when `content_settings` is absent (or carries no content type). -/
def projectBlob (b : BlobItem) : JObj :=
  [("name", .str b.name),
   ("size", .nat b.size),
   ("last_modified", match b.last_modified with
     | some t => .str t
     | none => .null),
   ("content_type", match b.content_settings with
     | some cs =>
       match cs.content_type with
       | some ct => .str ct
       | none => .null
     | none => .null)]

/-- An HTTP response: status code and JSON object body (ordered fields,
as written in the source dicts). -/
structure Response where
  status : Nat
  body : List (String × JVal)
deriving DecidableEq, Repr

/-- Look a field up in a response body. -/
def getField (r : Response) (k : String) : Option JVal :=
  (r.body.find? (fun p => p.1 = k)).map (fun p => p.2)

/-- `GET /health`, app.py lines 180–201, as a function of the outcome of
its single `get_container_properties()` call (`r`) and the clock sample
taken while building the response (`now`). -/
def health (st : AppState) (r : Except String Unit) (now : String) : Response :=
  match r with
  | .ok _ =>
    ⟨200, [("status", .str "healthy"),
           ("storage_account", .str st.storage_account),
           ("container", .str st.container),
           ("authentication", .str "workload_identity"),
           ("timestamp", .str now)]⟩
  | .error e =>
    ⟨500, [("status", .str "unhealthy"),
           ("error", .str e),
           ("timestamp", .str now)]⟩

/-- `GET /list`, app.py lines 203–231, as a function of the outcome of
its single `list_blobs()` enumeration.  On success the handler drains
the enumeration in order into `blobs` and reports `len(blobs)`. -/
def list_blobs (st : AppState) (r : Except String (List BlobItem)) (now : String) :
    Response :=
  match r with
  | .ok bs =>
    let blobs := bs.map projectBlob
    ⟨200, [("container", .str st.container),
           ("blob_count", .nat blobs.length),
           ("blobs", .arr blobs),
           ("timestamp", .str now)]⟩
  | .error e =>
    ⟨500, [("error", .str e),
           ("timestamp", .str now)]⟩

/-- The generated object name, app.py line 239: the literal ISO
timestamp embedded unsanitized. -/
def upload_blob_name (ts : String) : String :=
  "test-file-" ++ ts ++ ".txt"

/-- The generated two-line content, app.py line 240, embedding the same
timestamp sample. -/
def upload_content (ts : String) : String :=
  "Test file created at " ++ ts ++
    "\nThis file was uploaded using workload identity!\n"

/-- `POST /upload`, app.py lines 233–265, as a function of the clock
sample `ts` taken at line 238 (reused for the name, the content and the
success timestamp), the outcome of the single `upload_blob` call, and
the fresh clock sample `errNow` the error branch takes at line 264. -/
def upload_test_file (st : AppState) (ts : String) (w : Except String Unit)
    (errNow : String) : Response :=
  let blob_name := upload_blob_name ts
  let content := upload_content ts
  match w with
  | .ok _ =>
    ⟨200, [("status", .str "success"),
           ("blob_name", .str blob_name),
           ("container", .str st.container),
           ("size", .nat content.length),
           ("message", .str "File uploaded successfully using managed identity"),
           ("timestamp", .str ts)]⟩
  | .error e =>
    ⟨500, [("status", .str "error"),
           ("error", .str e),
           ("timestamp", .str errNow)]⟩

/-- UTF-8 byte length of a string: the sum of the encoded sizes of its
characters (the byte length of the payload `upload_blob` sends). -/
def utf8Length (s : String) : Nat :=
  (s.data.map Char.utf8Size).sum

/-- State of the external storage container, for the stateful handler
wrappers: whether the container exists, the descriptors its enumeration
yields, and the stored name/content pairs. -/
structure StorageState where
  containerExists : Bool
  blobs : List BlobItem
  objects : List (String × String)
deriving DecidableEq, Repr

/-- The container-metadata read of the storage collaborator
(`get_container_properties`): a pure read, failing when the container
is missing, never mutating storage. -/
def get_container_properties (s : StorageState) : Except String Unit × StorageState :=
  if s.containerExists then (.ok (), s)
  else (.error "The specified container does not exist.", s)

/-- The blob enumeration of the storage collaborator (`list_blobs()`):
a pure read of the current descriptors of the container, never mutating
storage. -/
def enumerate_blobs (s : StorageState) :
    Except String (List BlobItem) × StorageState :=
  if s.containerExists then (.ok s.blobs, s)
  else (.error "The specified container does not exist.", s)

/-- The object write of the storage collaborator.  With `overwrite = true` (the flag
app.py line 247 passes) an existing object of the same name is
replaced; with `overwrite = false` the write would fail on collision. -/
def store_upload_blob (s : StorageState) (n c : String) (overwrite : Bool) :
    Except String StorageState :=
  if s.objects.any (fun p => p.1 = n) then
    if overwrite then
      .ok { s with
            objects := s.objects.map (fun p => if p.1 = n then (n, c) else p) }
    else .error "BlobAlreadyExists"
  else .ok { s with objects := s.objects ++ [(n, c)] }

/-- `GET /health` threading the storage state through its single read. -/
def healthHandler (st : AppState) (now : String) (s : StorageState) :
    Response × StorageState :=
  let p := get_container_properties s
  (health st p.1 now, p.2)

/-- `GET /list` threading the storage state through its single read. -/
def listHandler (st : AppState) (now : String) (s : StorageState) :
    Response × StorageState :=
  let p := enumerate_blobs s
  (list_blobs st p.1 now, p.2)

/-- `POST /upload` threading the storage state through its single
write, which app.py line 247 issues with `overwrite=True`. -/
def uploadHandler (st : AppState) (ts errNow : String) (s : StorageState) :
    Response × StorageState :=
  match store_upload_blob s (upload_blob_name ts) (upload_content ts) true with
  | .ok s' => (upload_test_file st ts (.ok ()) errNow, s')
  | .error e => (upload_test_file st ts (.error e) errNow, s)

/-- The non-timestamp fields of a response body: the data a client
compares across repeated read-only calls. -/
def dataFields (r : Response) : List (String × JVal) :=
  r.body.filter (fun p => p.1 ≠ "timestamp")

/-! ## Helper lemmas -/

/-- Unfolding `startup` when the account variable is unset. -/
theorem startup_of_unset (env : Env)
    (h : env "AZURE_STORAGE_ACCOUNT_NAME" = none) :
    startup env = .error "AZURE_STORAGE_ACCOUNT_NAME must be set" := by
  unfold startup
  rw [h]

/-- Unfolding `startup` when the account variable is set. -/
theorem startup_of_set (env : Env) (s : String)
    (h : env "AZURE_STORAGE_ACCOUNT_NAME" = some s) :
    startup env =
      if s = "" then .error "AZURE_STORAGE_ACCOUNT_NAME must be set"
      else .ok { storage_account := s
                 container := (env "AZURE_STORAGE_CONTAINER_NAME").getD "data"
                 account_url := "https://" ++ s ++ ".blob.core.windows.net" } := by
  unfold startup
  rw [h]

/-- Inversion for a successful `startup`. -/
theorem startup_ok_iff (env : Env) (a : AppState) :
    startup env = .ok a ↔
      ∃ s, env "AZURE_STORAGE_ACCOUNT_NAME" = some s ∧ s ≠ "" ∧
        a = { storage_account := s
              container := (env "AZURE_STORAGE_CONTAINER_NAME").getD "data"
              account_url := "https://" ++ s ++ ".blob.core.windows.net" } := by
  constructor
  · intro h
    rcases hsa : env "AZURE_STORAGE_ACCOUNT_NAME" with _ | s
    · rw [startup_of_unset env hsa] at h
      cases h
    · rw [startup_of_set env s hsa] at h
      by_cases hs : s = ""
      · rw [if_pos hs] at h
        cases h
      · rw [if_neg hs] at h
        injection h with h
        exact ⟨s, rfl, hs, h.symm⟩
  · rintro ⟨s, hsa, hs, rfl⟩
    rw [startup_of_set env s hsa, if_neg hs]

end AksStorageLab

namespace AksStorageLab

/-! ## Claim theorems -/

/-- C1, counterexample: it is NOT the case that `STORAGE_ACCOUNT_NAME`
and `STORAGE_CONTAINER_NAME` are the exact environment keys the
configuration step consults — two environments that agree on both of
those keys can still bootstrap differently, because the code reads
`AZURE_STORAGE_ACCOUNT_NAME` and `AZURE_STORAGE_CONTAINER_NAME`
(app.py lines 22–23). -/
theorem C1_env_keys_counterexample :
    ¬ (∀ env env2 : Env,
        env "STORAGE_ACCOUNT_NAME" = env2 "STORAGE_ACCOUNT_NAME" →
        env "STORAGE_CONTAINER_NAME" = env2 "STORAGE_CONTAINER_NAME" →
        startup env = startup env2) := by
  intro hclaim
  have h := hclaim
    (fun k => if k = "AZURE_STORAGE_ACCOUNT_NAME" then some "acct1" else none)
    (fun _ => none) (by decide) (by decide)
  have h2 : (Except.ok (AppState.mk "acct1" "data"
      "https://acct1.blob.core.windows.net") : Except String AppState) =
      .error "AZURE_STORAGE_ACCOUNT_NAME must be set" := h
  cases h2

/-- C1, amended: the configuration step reads the account name from
`AZURE_STORAGE_ACCOUNT_NAME` and the container name from
`AZURE_STORAGE_CONTAINER_NAME`; for every environment mapping these are
the exact keys consulted (environments agreeing on them bootstrap
identically), with the container defaulting to `"data"` when its
variable is unset. -/
theorem C1_env_keys_amended (env env2 : Env)
    (h1 : env "AZURE_STORAGE_ACCOUNT_NAME" = env2 "AZURE_STORAGE_ACCOUNT_NAME")
    (h2 : env "AZURE_STORAGE_CONTAINER_NAME" = env2 "AZURE_STORAGE_CONTAINER_NAME") :
    startup env = startup env2 ∧
    (env "AZURE_STORAGE_CONTAINER_NAME" = none →
      ∀ a, startup env = .ok a → a.container = "data") := by
  constructor
  · unfold startup
    rw [h1, h2]
  · intro hnone a ha
    rcases (startup_ok_iff env a).mp ha with ⟨s, _, _, rfl⟩
    rw [hnone]
    rfl

/-- C1 witness: two concrete environments agreeing on the two
`AZURE_`-prefixed keys bootstrap identically, and with the container
variable unset the container is `"data"`. -/
theorem C1_env_keys_amended_witness :
    startup (fun k => if k = "AZURE_STORAGE_ACCOUNT_NAME" then some "acct1" else none) =
      startup (fun k => if k = "AZURE_STORAGE_ACCOUNT_NAME" then some "acct1"
        else if k = "OTHER" then some "x" else none) ∧
    (((fun k => if k = "AZURE_STORAGE_ACCOUNT_NAME" then some "acct1" else none) : Env)
        "AZURE_STORAGE_CONTAINER_NAME" = none →
      ∀ a, startup (fun k => if k = "AZURE_STORAGE_ACCOUNT_NAME" then some "acct1" else none) =
        .ok a → a.container = "data") :=
  C1_env_keys_amended
    (fun k => if k = "AZURE_STORAGE_ACCOUNT_NAME" then some "acct1" else none)
    (fun k => if k = "AZURE_STORAGE_ACCOUNT_NAME" then some "acct1"
      else if k = "OTHER" then some "x" else none)
    (by decide) (by decide)

/-- C2: for every sequence of blob descriptors the enumeration yields,
a successful `GET /list` responds 200 with a `blobs` array that is the
order-preserving projection (`List.map projectBlob`) of that sequence,
`blob_count` equal to the length of `blobs`; an empty enumeration
yields `blob_count = 0` and `blobs = []`. -/
theorem C2_list_projection (st : AppState) (bs : List BlobItem) (now : String) :
    (list_blobs st (.ok bs) now).status = 200 ∧
    getField (list_blobs st (.ok bs) now) "blobs" =
      some (.arr (bs.map projectBlob)) ∧
    getField (list_blobs st (.ok bs) now) "blob_count" =
      some (.nat (bs.map projectBlob).length) ∧
    (bs.map projectBlob).length = bs.length ∧
    getField (list_blobs st (.ok ([] : List BlobItem)) now) "blob_count" =
      some (.nat 0) ∧
    getField (list_blobs st (.ok ([] : List BlobItem)) now) "blobs" =
      some (.arr []) :=
  ⟨rfl, rfl, rfl, List.length_map bs projectBlob, rfl, rfl⟩

/-- C3: startup succeeds iff the account name value is a non-empty
string; when it is missing or empty the bootstrap aborts with the fatal
`ValueError` — the `.error` result, under which no `AppState` (hence no
storage client, no bound port, no served route) ever comes into
existence. -/
theorem C3_startup_iff_nonempty_account (env : Env) :
    ((∃ a, startup env = .ok a) ↔
      ∃ s, env "AZURE_STORAGE_ACCOUNT_NAME" = some s ∧ s ≠ "") ∧
    (strTruthy (env "AZURE_STORAGE_ACCOUNT_NAME") = false →
      startup env = .error "AZURE_STORAGE_ACCOUNT_NAME must be set") := by
  constructor
  · constructor
    · rintro ⟨a, ha⟩
      rcases (startup_ok_iff env a).mp ha with ⟨s, hsa, hs, _⟩
      exact ⟨s, hsa, hs⟩
    · rintro ⟨s, hsa, hs⟩
      exact ⟨_, (startup_ok_iff env _).mpr ⟨s, hsa, hs, rfl⟩⟩
  · intro hf
    rcases hsa : env "AZURE_STORAGE_ACCOUNT_NAME" with _ | s
    · exact startup_of_unset env hsa
    · rw [hsa] at hf
      have hs : s = "" := by
        by_contra hne
        simp [strTruthy, hne] at hf
      rw [startup_of_set env s hsa, if_pos hs]

/-- C3 witness: with an empty environment, startup fails with the fatal
error; with the account set, startup succeeds. -/
theorem C3_startup_iff_nonempty_account_witness :
    startup (fun _ => none) = .error "AZURE_STORAGE_ACCOUNT_NAME must be set" :=
  (C3_startup_iff_nonempty_account (fun _ => none)).2 rfl

/-- C8: the storage endpoint URL is derived deterministically from the
account name alone by interpolating it into the fixed template
`https://{accountName}.blob.core.windows.net` (app.py line 32), for
every successfully bootstrapped configuration. -/
theorem C8_endpoint_url (env : Env) (a : AppState)
    (h : startup env = .ok a) :
    a.account_url = "https://" ++ a.storage_account ++ ".blob.core.windows.net" ∧
    ∀ (env2 : Env) (a2 : AppState), startup env2 = .ok a2 →
      a2.storage_account = a.storage_account → a2.account_url = a.account_url := by
  have key : ∀ (e : Env) (b : AppState), startup e = .ok b →
      b.account_url = "https://" ++ b.storage_account ++ ".blob.core.windows.net" := by
    intro e b hb
    rcases (startup_ok_iff e b).mp hb with ⟨s, _, _, rfl⟩
    rfl
  refine ⟨key env a h, fun env2 a2 h2 hsa => ?_⟩
  rw [key env2 a2 h2, key env a h, hsa]

/-- C4: every `POST /upload` generates the object name
`test-file-{timestamp}.txt` with the clock sample embedded literally
(no character sanitization), generates two-line content embedding that
same sample, and writes with overwrite semantics: a colliding upload
succeeds, replacing the stored content. -/
theorem C4_upload_overwrite (st : AppState) (ts errNow : String) (s : StorageState)
    (hcollide : (s.objects.any fun p => p.1 = upload_blob_name ts) = true) :
    upload_blob_name ts = "test-file-" ++ ts ++ ".txt" ∧
    upload_content ts = "Test file created at " ++ ts ++
      "\nThis file was uploaded using workload identity!\n" ∧
    (uploadHandler st ts errNow s).1.status = 200 ∧
    (uploadHandler st ts errNow s).2.objects.lookup (upload_blob_name ts) =
      some (upload_content ts) := by
  have hw : store_upload_blob s (upload_blob_name ts) (upload_content ts) true =
      .ok { s with objects := s.objects.map (fun p => if p.1 = upload_blob_name ts then (upload_blob_name ts, upload_content ts) else p) } := by
    unfold store_upload_blob
    rw [if_pos hcollide, if_pos rfl]
  have hlook : ∀ (l : List (String × String)) (n c : String),
      (l.any fun p => p.1 = n) = true →
      (l.map fun p => if p.1 = n then (n, c) else p).lookup n = some c := by
    intro l n c hany
    induction l with
    | nil => simp at hany
    | cons hd tl ih =>
      rcases hd with ⟨a, b⟩
      rw [List.map_cons]
      by_cases hh : a = n
      · rw [if_pos hh, List.lookup_cons]
        simp
      · rw [if_neg hh, List.lookup_cons]
        have hne : (n == a) = false := beq_false_of_ne (fun h => hh h.symm)
        simp only [hne]
        rw [List.any_cons] at hany
        simp only [Bool.or_eq_true, decide_eq_true_eq] at hany
        rcases hany with h1 | h2
        · exact absurd h1 hh
        · exact ih (by simpa using h2)
  refine ⟨rfl, rfl, ?_, ?_⟩
  · unfold uploadHandler
    rw [hw]
    rfl
  · show (uploadHandler st ts errNow s).2.objects.lookup (upload_blob_name ts) =
      some (upload_content ts)
    unfold uploadHandler
    rw [hw]
    exact hlook s.objects (upload_blob_name ts) (upload_content ts) hcollide

/-- C4 witness: with timestamp sample `T` and a stored object already
named `test-file-T.txt`, the upload succeeds with status 200 and the
store afterwards maps that name to the freshly generated content. -/
theorem C4_upload_overwrite_witness :
    (uploadHandler (AppState.mk "acct1" "data" "u") "T" "E"
        (StorageState.mk true [] [("test-file-T.txt", "old")])).1.status = 200 ∧
    (uploadHandler (AppState.mk "acct1" "data" "u") "T" "E"
        (StorageState.mk true [] [("test-file-T.txt", "old")])).2.objects.lookup
      (upload_blob_name "T") = some (upload_content "T") :=
  ⟨(C4_upload_overwrite (AppState.mk "acct1" "data" "u") "T" "E"
      (StorageState.mk true [] [("test-file-T.txt", "old")]) (by decide)).2.2.1,
   (C4_upload_overwrite (AppState.mk "acct1" "data" "u") "T" "E"
      (StorageState.mk true [] [("test-file-T.txt", "old")]) (by decide)).2.2.2⟩

/-- C8 witness: the concrete account `acct1` yields the endpoint
`https://acct1.blob.core.windows.net`. -/
theorem C8_endpoint_url_witness :
    (AppState.mk "acct1" "data" "https://acct1.blob.core.windows.net").account_url =
      "https://" ++ (AppState.mk "acct1" "data"
        "https://acct1.blob.core.windows.net").storage_account ++
        ".blob.core.windows.net" :=
  (C8_endpoint_url
    (fun k => if k = "AZURE_STORAGE_ACCOUNT_NAME" then some "acct1" else none)
    (AppState.mk "acct1" "data" "https://acct1.blob.core.windows.net")
    rfl).1

/-- An ASCII character encodes to one UTF-8 byte. -/
theorem utf8Size_of_ascii (c : Char) (h : c.toNat < 128) : c.utf8Size = 1 := by
  unfold Char.utf8Size
  rw [if_pos]
  exact Nat.le_of_lt_succ h

/-- For an all-ASCII character list, the UTF-8 byte count equals the
character count. -/
theorem sum_utf8Size_of_ascii (l : List Char) (h : ∀ c ∈ l, c.toNat < 128) :
    (l.map Char.utf8Size).sum = l.length := by
  induction l with
  | nil => rfl
  | cons hd tl ih =>
    rw [List.map_cons, List.sum_cons, List.length_cons,
        utf8Size_of_ascii hd (h hd (List.mem_cons_self hd tl)),
        ih (fun c hc => h c (List.mem_cons_of_mem hd hc))]
    omega

/-- The generated upload content is all-ASCII whenever the embedded
timestamp sample is (ISO-8601 timestamps are). -/
theorem upload_content_ascii (ts : String) (h : ∀ c ∈ ts.data, c.toNat < 128) :
    ∀ c ∈ (upload_content ts).data, c.toNat < 128 := by
  intro c hc
  unfold upload_content at hc
  rw [String.data_append, String.data_append] at hc
  rcases List.mem_append.mp hc with hc | hc
  · rcases List.mem_append.mp hc with hc | hc
    · exact (by decide : ∀ x ∈ "Test file created at ".data, x.toNat < 128) c hc
    · exact h c hc
  · exact (by decide :
      ∀ x ∈ "\nThis file was uploaded using workload identity!\n".data,
        x.toNat < 128) c hc

/-- C5: the `size` field of a successful `POST /upload` response equals
the UTF-8 byte length of the generated content string (the source
reports `len(content)`, the code-point count, which coincides with the
byte length because the generated content is ASCII whenever the
timestamp sample is). -/
theorem C5_upload_size (st : AppState) (ts errNow : String)
    (h : ∀ c ∈ ts.data, c.toNat < 128) :
    getField (upload_test_file st ts (.ok ()) errNow) "size" =
      some (.nat (utf8Length (upload_content ts))) := by
  have hlen : utf8Length (upload_content ts) = (upload_content ts).length := by
    unfold utf8Length
    exact sum_utf8Size_of_ascii (upload_content ts).data (upload_content_ascii ts h)
  rw [hlen]
  rfl

/-- C5 witness: at the concrete ISO timestamp `2024-01-01T00:00:00`,
the reported size is the byte length of the generated content. -/
theorem C5_upload_size_witness :
    getField (upload_test_file (AppState.mk "acct1" "data" "u")
        "2024-01-01T00:00:00" (.ok ()) "E") "size" =
      some (.nat (utf8Length (upload_content "2024-01-01T00:00:00"))) :=
  C5_upload_size (AppState.mk "acct1" "data" "u") "2024-01-01T00:00:00" "E"
    (by decide)

/-- C6: `GET /health` responds 200 with exactly the fields
`status:"healthy"`, `storage_account`, `container`,
`authentication:"workload_identity"`, `timestamp` when the single
container-metadata read succeeds, and 500 with exactly
`status:"unhealthy"`, `error` (the raised message, non-empty when the
message is), `timestamp` when it fails for any reason; the handler
takes the outcome of exactly one read, with no retry. -/
theorem C6_health_contract (st : AppState) (now m : String) (hm : m ≠ "") :
    health st (.ok ()) now =
      ⟨200, [("status", .str "healthy"),
             ("storage_account", .str st.storage_account),
             ("container", .str st.container),
             ("authentication", .str "workload_identity"),
             ("timestamp", .str now)]⟩ ∧
    health st (.error m) now =
      ⟨500, [("status", .str "unhealthy"),
             ("error", .str m),
             ("timestamp", .str now)]⟩ ∧
    getField (health st (.error m) now) "error" ≠ some (.str "") := by
  refine ⟨rfl, rfl, ?_⟩
  intro hcontra
  have : JVal.str m = .str "" := by
    have hfind : getField (health st (.error m) now) "error" = some (.str m) := rfl
    rw [hfind] at hcontra
    injection hcontra
  apply hm
  have := congrArg (fun v => match v with | JVal.atom (.str s) => s | _ => "") this
  simpa using this

/-- C6 witness: a concrete failed health check carries the raised
message `boom`, which is non-empty. -/
theorem C6_health_contract_witness :
    getField (health (AppState.mk "acct1" "data" "u") (.error "boom") "t0")
      "error" ≠ some (.str "") :=
  (C6_health_contract (AppState.mk "acct1" "data" "u") "t0" "boom"
    (by decide)).2.2

/-- C7: for every request to `/health`, `/list` or `/upload` and every
outcome of the single underlying storage call, the handler returns a
JSON envelope that always contains a `timestamp` field, with status 200
on success and 500 carrying the raw error message string on failure. -/
theorem C7_total_json_envelope (st : AppState) (now ts errNow : String) :
    (∀ u : Except String Unit,
      getField (health st u now) "timestamp" = some (.str now) ∧
      (health st u now).status = if u.isOk then 200 else 500) ∧
    (∀ m : String, getField (health st (.error m) now) "error" = some (.str m)) ∧
    (∀ l : Except String (List BlobItem),
      getField (list_blobs st l now) "timestamp" = some (.str now) ∧
      (list_blobs st l now).status = if l.isOk then 200 else 500) ∧
    (∀ m : String, getField (list_blobs st (.error m) now) "error" = some (.str m)) ∧
    (∀ w : Except String Unit,
      (getField (upload_test_file st ts w errNow) "timestamp").isSome = true ∧
      (upload_test_file st ts w errNow).status = if w.isOk then 200 else 500) ∧
    (∀ m : String,
      getField (upload_test_file st ts (.error m) errNow) "error" = some (.str m)) := by
  refine ⟨?_, fun m => rfl, ?_, fun m => rfl, ?_, fun m => rfl⟩
  · intro u
    cases u <;> exact ⟨rfl, rfl⟩
  · intro l
    cases l <;> exact ⟨rfl, rfl⟩
  · intro w
    cases w <;> exact ⟨rfl, rfl⟩

/-- C9: `GET /health` and `GET /list` are read-only: on a fixed storage
state each leaves the state unchanged, and any two invocations (in any
order, at any clock samples) return the same status code and the same
data fields — everything except the response timestamp. -/
theorem C9_reads_are_pure (st : AppState) (now now2 : String) (s : StorageState) :
    (healthHandler st now s).2 = s ∧
    (listHandler st now s).2 = s ∧
    (healthHandler st now s).1.status = (healthHandler st now2 s).1.status ∧
    dataFields (healthHandler st now s).1 = dataFields (healthHandler st now2 s).1 ∧
    (listHandler st now s).1.status = (listHandler st now2 s).1.status ∧
    dataFields (listHandler st now s).1 = dataFields (listHandler st now2 s).1 := by
  unfold healthHandler listHandler get_container_properties enumerate_blobs
  cases hc : s.containerExists <;>
    simp [hc, health, list_blobs, dataFields]

/-- C10: in every successful `POST /upload` response the `timestamp`
field equals the clock sample embedded in both the returned `blob_name`
and the uploaded content (the clock is sampled once, before the storage
call), whereas the error response carries the fresh sample taken at
failure time, independent of the generated name. -/
theorem C10_upload_timestamp_reuse (st : AppState) (ts errNow m : String) :
    getField (upload_test_file st ts (.ok ()) errNow) "timestamp" =
      some (.str ts) ∧
    getField (upload_test_file st ts (.ok ()) errNow) "blob_name" =
      some (.str ("test-file-" ++ ts ++ ".txt")) ∧
    upload_content ts = "Test file created at " ++ ts ++
      "\nThis file was uploaded using workload identity!\n" ∧
    getField (upload_test_file st ts (.error m) errNow) "timestamp" =
      some (.str errNow) :=
  ⟨rfl, rfl, rfl, rfl⟩

end AksStorageLab
